import Mathlib

/-!
Verification of the certbot-dns-hostinger reconciliation logic.

Shallow embedding of `certbot_dns_hostinger/_internal/dns_hostinger.py`:
the `Authenticator` (ChallengeHandler) and `_HostingerClient`
(ZoneRecordManager) classes.  The Hostinger DNS API is external to the
repository; it is represented by an oracle (`Provider`) answering each of
the three RPCs the client issues, and the requests actually issued are
collected in a trace of `ApiCall` values.
-/

/-- A DNS record as seen through the provider API: the fields the code
reads (`z.name`, `z.type`) plus content and ttl. -/
structure DNSRecord where
  name : String
  type : String
  content : String
  ttl : Nat
deriving Repr, DecidableEq

/-- One request issued against the Hostinger DNS API, mirroring
`get_dns_records_v1`, `delete_dns_records_v1` (with a name+type filter) and
`update_dns_records_v1` (with zone entry and overwrite flag). -/
inductive ApiCall where
  | list (zone : String)
  | delete (zone : String) (filterName : String) (filterType : String)
  | create (zone : String) (name : String) (type : String) (ttl : Nat)
      (contents : List String) (overwrite : Bool)
deriving Repr, DecidableEq

/-- Models `certbot.errors.PluginError` as raised by the client: carries the
formatted message and, separately, the original cause it wraps
(`raise errors.PluginError(msg) from e`). -/
structure PluginError where
  msg : String
  cause : Option String
deriving Repr, DecidableEq

/-- Oracle for the external Hostinger API: the outcome each RPC would have,
plus the outcome of constructing the API client itself
(`_get_api_client`, which raises a `PluginError` when the
`hostinger_api` package cannot be imported). Errors are their message
strings, as `str(e)` interpolates them into the wrapping message. -/
structure Provider where
  apiClientInit : Except String Unit
  listResult : String → Except String (List DNSRecord)
  deleteResult : String → String → String → Except String Unit
  createResult : String → String → String → Nat → List String → Bool →
      Except String Unit

/-- Python `str.endswith(suffix)`: the suffix relation on the character
sequences. -/
def pyEndsWith (s suffix : String) : Bool :=
  decide (suffix.data <:+ s.data)

/-- Python `s[:-n]` for `n ≥ 1`: all characters but the last `n`
(empty when `n ≥ len(s)`). -/
def pyDropRight (s : String) (n : Nat) : String :=
  String.mk (s.data.take (s.data.length - n))

/-- Helper for `pySplit`: walks the characters, cutting at each separator;
`acc` holds the current chunk reversed. -/
def pySplitAux (sep : Char) : List Char → List Char → List String
  | [], acc => [String.mk acc.reverse]
  | c :: cs, acc =>
      if c = sep then String.mk acc.reverse :: pySplitAux sep cs []
      else pySplitAux sep cs (c :: acc)

/-- Python `s.split(sep)` for a one-character separator: every occurrence
cuts, empty chunks are kept, and `"".split(sep) == [""]`. -/
def pySplit (s : String) (sep : Char) : List String :=
  pySplitAux sep s.data []

/-- Embeds `_HostingerClient._get_root_domain`: split the domain on `"."`;
with at least two labels the zone is the last two joined by `"."`
(`".".join(parts[-2:])`), otherwise the domain itself. -/
def getRootDomain (domain : String) : String :=
  let parts := pySplit domain '.'
  if parts.length ≥ 2 then
    String.intercalate "." (parts.drop (parts.length - 2))
  else domain

/-- Embeds the subdomain computation inlined in both
`_HostingerClient.add_txt_record` and `_HostingerClient.del_txt_record`:
if `record_name` ends with `"." + root_domain` strip that suffix
(`record_name[: -len(f".{root_domain}")]`); else if it equals the root
domain the subdomain is `"@"`; else `record_name` unchanged. -/
def subdomainOf (recordName rootDomain : String) : String :=
  let suffix := "." ++ rootDomain
  if pyEndsWith recordName suffix then
    pyDropRight recordName suffix.length
  else if recordName = rootDomain then "@"
  else recordName

section StringLemmas

/-- Any string of the shape `x ++ suffix` passes the `endswith` test. -/
theorem pyEndsWith_append (x suffix : String) :
    pyEndsWith (x ++ suffix) suffix = true := by
  simp only [pyEndsWith, String.data_append, decide_eq_true_eq]
  exact List.suffix_append x.data suffix.data

/-- Dropping the suffix length from `x ++ suffix` recovers `x`. -/
theorem pyDropRight_append (x suffix : String) :
    pyDropRight (x ++ suffix) suffix.length = x := by
  simp only [pyDropRight, String.data_append]
  have hlen : (x.data ++ suffix.data).length - suffix.data.length
      = x.data.length := by
    simp [List.length_append]
  rw [show suffix.length = suffix.data.length from rfl, hlen,
    List.take_left]

/-- A string never ends with a strictly longer string: in particular a
zone never ends with `"." ++ zone`. -/
theorem pyEndsWith_dot_self (zone : String) :
    pyEndsWith zone ("." ++ zone) = false := by
  simp only [pyEndsWith, String.data_append, decide_eq_false_iff_not]
  intro h
  have := h.length_le
  simp [List.length_append] at this

end StringLemmas

/-- Embeds `_HostingerClient.add_txt_record`.  Returns the trace of API
requests issued and the outcome: `Except.ok` on success, or the
`PluginError` raised by the outer `except Exception` handler, whose message
wraps the original cause (`f"Encountered error adding TXT record: {e}"`).
Steps mirror the source: obtain the API client, resolve the root domain
and subdomain, list the zone (step 1), filter for conflicting TXT records,
best-effort delete when the conflict set is non-empty (step 2, failures
caught and only logged), then create with `overwrite=False` (step 3). -/
def add_txt_record (p : Provider) (domain recordName recordContent : String)
    (ttl : Nat) : List ApiCall × Except PluginError Unit :=
  match p.apiClientInit with
  | .error e =>
      ([], .error ⟨"Encountered error adding TXT record: " ++ e, some e⟩)
  | .ok _ =>
    let rootDomain := getRootDomain domain
    let subdomain := subdomainOf recordName rootDomain
    match p.listResult rootDomain with
    | .error e =>
        ([.list rootDomain],
         .error ⟨"Encountered error adding TXT record: " ++ e, some e⟩)
    | .ok zoneRecords =>
      let existingAcme := zoneRecords.filter
        (fun z => z.name == subdomain && z.type == "TXT")
      let deleteCalls : List ApiCall :=
        if existingAcme.isEmpty then []
        else
          match p.deleteResult rootDomain subdomain "TXT" with
          | .error _ => [.delete rootDomain subdomain "TXT"]
          | .ok _ => [.delete rootDomain subdomain "TXT"]
      let createCall : ApiCall :=
        .create rootDomain subdomain "TXT" ttl [recordContent] false
      match p.createResult rootDomain subdomain "TXT" ttl [recordContent]
          false with
      | .error e =>
          (.list rootDomain :: (deleteCalls ++ [createCall]),
           .error ⟨"Encountered error adding TXT record: " ++ e, some e⟩)
      | .ok _ =>
          (.list rootDomain :: (deleteCalls ++ [createCall]), .ok ())

/-- Embeds `_HostingerClient.del_txt_record`.  The whole body sits inside a
`try` whose handler only logs a warning, so every outcome is `Except.ok`;
the trace records the delete-by-filter request when it is reached.  The
third argument embeds the unused `_record_content` parameter. -/
def del_txt_record (p : Provider) (domain recordName _recordContent : String) :
    List ApiCall × Except PluginError Unit :=
  match p.apiClientInit with
  | .error _ => ([], .ok ())
  | .ok _ =>
    let rootDomain := getRootDomain domain
    let subdomain := subdomainOf recordName rootDomain
    match p.deleteResult rootDomain subdomain "TXT" with
    | .error _ => ([.delete rootDomain subdomain "TXT"], .ok ())
    | .ok _ => ([.delete rootDomain subdomain "TXT"], .ok ())

/-- Modelled from the spec: the Hostinger DNS API itself is outside the
repository (an external black-box RPC service).  Stub semantics over a zone
state, following the API surface of §6 of the spec: `list` returns the
records of the zone, `delete` removes every record matching the name+type filter, and
`create` with `overwrite=false` adds the named record leaving all other
records untouched (with `overwrite=true` it would replace the zone). -/
def applyCall (st : List DNSRecord) : ApiCall → List DNSRecord
  | .list _ => st
  | .delete _ fname ftype =>
      st.filter (fun r => !(r.name == fname && r.type == ftype))
  | .create _ name ty ttl contents ow =>
      let newRecs := contents.map
        (fun c => { name := name, type := ty, content := c, ttl := ttl })
      if ow then newRecs else st ++ newRecs

/-- A stub provider over a fixed zone state: listing returns the state and
every RPC succeeds. -/
def stubProvider (st : List DNSRecord) : Provider :=
  { apiClientInit := .ok ()
  , listResult := fun _ => .ok st
  , deleteResult := fun _ _ _ => .ok ()
  , createResult := fun _ _ _ _ _ _ => .ok () }

/-- Run `add_txt_record` against the stub provider holding state `st` and
apply the issued requests to `st`, yielding the zone state afterwards. -/
def runAddStub (st : List DNSRecord) (domain recordName content : String)
    (ttl : Nat) : List DNSRecord :=
  ((add_txt_record (stubProvider st) domain recordName content ttl).1).foldl
    applyCall st

/-- State of the `Authenticator` relevant to client construction: its
credentials (the API token, or `none` before `_setup_credentials`). -/
structure AuthState where
  credentials : Option String
deriving Repr, DecidableEq

/-- The `_HostingerClient` object state: the stored token and the lazily
cached API client (`self._api_client`, initialised to `None` in
`__init__`). -/
structure HostingerClient where
  apiToken : String
  apiClient : Option Unit
deriving Repr, DecidableEq

/-- Embeds `Authenticator._get_hostinger_client`: raises when credentials
are absent, otherwise returns a freshly constructed `_HostingerClient`
(the constructor sets `_api_client = None`); nothing is cached on the
authenticator. -/
def getHostingerClient (a : AuthState) : Except PluginError HostingerClient :=
  match a.credentials with
  | none => .error ⟨"Plugin has not been prepared.", none⟩
  | some tok => .ok { apiToken := tok, apiClient := none }

/-- Embeds `_HostingerClient._get_api_client`: when `_api_client is None`
construct the API client and cache it, otherwise return the cached one.
The second component counts constructions performed by this call
(1 or 0). -/
def getApiClient (c : HostingerClient) : HostingerClient × Nat :=
  match c.apiClient with
  | none => ({ c with apiClient := some () }, 1)
  | some _ => (c, 0)

/-- API-client constructions performed by one `Authenticator._perform`:
a fresh `_HostingerClient` is obtained and `add_txt_record` calls
`_get_api_client` on it once. -/
def performConstructions (a : AuthState) : Nat :=
  match getHostingerClient a with
  | .error _ => 0
  | .ok c => (getApiClient c).2

/-- API-client constructions performed by one `Authenticator._cleanup`:
a fresh `_HostingerClient` is obtained and `del_txt_record` calls
`_get_api_client` on it once. -/
def cleanupConstructions (a : AuthState) : Nat :=
  match getHostingerClient a with
  | .error _ => 0
  | .ok c => (getApiClient c).2

/-- Embeds `Authenticator._cleanup`: obtain a client (propagating the
not-prepared error) and delegate to `del_txt_record`, passing the
validation token through to its unused `_record_content` parameter. -/
def authCleanup (a : AuthState) (p : Provider)
    (domain validationName validation : String) :
    Except PluginError (List ApiCall × Except PluginError Unit) :=
  match getHostingerClient a with
  | .error e => .error e
  | .ok _ => .ok (del_txt_record p domain validationName validation)

/-- Joining a two-element list with `"."` is `a ++ "." ++ b`. -/
theorem intercalate_pair (a b : String) :
    String.intercalate "." [a, b] = a ++ "." ++ b := by
  simp [String.intercalate, String.intercalate.go]

/-- C2: `_get_root_domain` (resolveZone) returns the last two
dot-separated labels joined by `"."` whenever the domain has at least two
labels, and returns the domain unchanged when it has exactly one. -/
theorem getRootDomain_last_two (domain : String) :
    (∀ pre a b, pySplit domain '.' = pre ++ [a, b] →
      getRootDomain domain = a ++ "." ++ b) ∧
    ((pySplit domain '.').length = 1 → getRootDomain domain = domain) := by
  constructor
  · intro pre a b h
    simp only [getRootDomain, h]
    have hge : (pre ++ [a, b]).length ≥ 2 := by simp
    rw [if_pos hge]
    have h2 : (pre ++ [a, b]).length - 2 = pre.length := by simp
    rw [h2, List.drop_left, intercalate_pair]
  · intro h1
    simp only [getRootDomain]
    rw [if_neg (by omega)]

/-- C2 witness: `"auth.sso.bbdevs.com"` resolves to `"bbdevs.com"`. -/
theorem getRootDomain_last_two_witness :
    getRootDomain "auth.sso.bbdevs.com" = "bbdevs" ++ "." ++ "com" :=
  (getRootDomain_last_two "auth.sso.bbdevs.com").1 ["auth", "sso"]
    "bbdevs" "com" (by decide)

/-- C3: The relative-name computation strips a trailing
`"." ++ zone` (yielding the prefix `X`), maps a name equal to the zone to
`"@"`, and returns any other name unchanged — it is a total function, so
no error is possible for names outside the zone. -/
theorem subdomainOf_cases (X zone recordName : String) :
    subdomainOf (X ++ "." ++ zone) zone = X ∧
    subdomainOf zone zone = "@" ∧
    (pyEndsWith recordName ("." ++ zone) = false → recordName ≠ zone →
      subdomainOf recordName zone = recordName) := by
  refine ⟨?_, ?_, fun h1 h2 => ?_⟩
  · have hassoc : X ++ "." ++ zone = X ++ ("." ++ zone) :=
      String.append_assoc X "." zone
    simp only [subdomainOf, hassoc]
    rw [if_pos (pyEndsWith_append X ("." ++ zone))]
    exact pyDropRight_append X ("." ++ zone)
  · simp only [subdomainOf]
    rw [if_neg (by simp [pyEndsWith_dot_self zone])]
    simp
  · simp only [subdomainOf]
    rw [if_neg (by simp [h1]), if_neg h2]

/-- C3 witness: A name outside the zone passes through unchanged. -/
theorem subdomainOf_cases_witness :
    subdomainOf "other.com" "bbdevs.com" = "other.com" :=
  (subdomainOf_cases "x" "bbdevs.com" "other.com").2.2 (by decide) (by decide)

/-- Stripping from a string its own length leaves the empty string. -/
theorem pyDropRight_self (s : String) : pyDropRight s s.length = "" := by
  simp only [pyDropRight]
  rw [show s.length = s.data.length from rfl, Nat.sub_self, List.take_zero]

/-- Every string ends with itself. -/
theorem pyEndsWith_self (s : String) : pyEndsWith s s = true := by
  simp [pyEndsWith]

/-- The suffix-strip branch wins on `"." ++ zone`: its relative name is
the empty string. -/
theorem subdomainOf_dot_zone (zone : String) :
    subdomainOf ("." ++ zone) zone = "" := by
  simp only [subdomainOf]
  rw [if_pos (pyEndsWith_self ("." ++ zone))]
  exact pyDropRight_self ("." ++ zone)

/-- C10: When the record name is exactly `"." ++ zone` (for the zone
the domain resolves to), both `add_txt_record` and `del_txt_record`
compute the empty string as the relative name — not `"@"` and not the
record name unchanged — and the provider requests they issue carry
`name=""`: the delete-by-filter request of `del_txt_record` and the create
request of `add_txt_record`. -/
theorem dot_zone_requests_use_empty_name (domain content : String) (ttl : Nat)
    (p : Provider) (st : List DNSRecord)
    (hz : getRootDomain domain ≠ "") (hinit : p.apiClientInit = .ok ()) :
    subdomainOf ("." ++ getRootDomain domain) (getRootDomain domain) = "" ∧
    ("" : String) ≠ "@" ∧
    ("" : String) ≠ "." ++ getRootDomain domain ∧
    (del_txt_record p domain ("." ++ getRootDomain domain) content).1
      = [.delete (getRootDomain domain) "" "TXT"] ∧
    ApiCall.create (getRootDomain domain) "" "TXT" ttl [content] false
      ∈ (add_txt_record (stubProvider st) domain
          ("." ++ getRootDomain domain) content ttl).1 := by
  refine ⟨subdomainOf_dot_zone _, by decide, ?_, ?_, ?_⟩
  · intro h
    have hd := congrArg String.data h
    rw [String.data_append] at hd
    simp at hd
  · simp only [del_txt_record, hinit, subdomainOf_dot_zone]
    cases p.deleteResult (getRootDomain domain) "" "TXT" <;> rfl
  · simp only [add_txt_record, stubProvider, subdomainOf_dot_zone]
    exact List.mem_cons_of_mem _
      (List.mem_append_right _ (List.mem_singleton.mpr rfl))

/-- C10 witness: Concrete run at zone `"bbdevs.com"`. -/
theorem dot_zone_requests_use_empty_name_witness :
    (del_txt_record (stubProvider []) "bbdevs.com"
        ("." ++ getRootDomain "bbdevs.com") "tok").1
      = [.delete (getRootDomain "bbdevs.com") "" "TXT"] :=
  (dot_zone_requests_use_empty_name "bbdevs.com" "tok" 60 (stubProvider [])
    [] (by decide) rfl).2.2.2.1

/-- Characterisation of `add_txt_record` when the API client is available
and the listing succeeds: the trace is the list request, then the
conditional delete-by-filter, then the create, and the outcome depends
only on the create result. -/
theorem add_txt_record_eq (p : Provider) (domain recordName content : String)
    (ttl : Nat) (records : List DNSRecord)
    (hinit : p.apiClientInit = .ok ())
    (hlist : p.listResult (getRootDomain domain) = .ok records) :
    add_txt_record p domain recordName content ttl =
      (ApiCall.list (getRootDomain domain) ::
        ((if (records.filter (fun z =>
              z.name == subdomainOf recordName (getRootDomain domain) &&
              z.type == "TXT")).isEmpty then []
          else [ApiCall.delete (getRootDomain domain)
            (subdomainOf recordName (getRootDomain domain)) "TXT"]) ++
         [ApiCall.create (getRootDomain domain)
            (subdomainOf recordName (getRootDomain domain)) "TXT" ttl
            [content] false]),
       match p.createResult (getRootDomain domain)
           (subdomainOf recordName (getRootDomain domain)) "TXT" ttl
           [content] false with
       | .error e =>
           .error ⟨"Encountered error adding TXT record: " ++ e, some e⟩
       | .ok _ => .ok ()) := by
  simp only [add_txt_record, hinit, hlist]
  cases p.deleteResult (getRootDomain domain)
      (subdomainOf recordName (getRootDomain domain)) "TXT" <;>
    cases p.createResult (getRootDomain domain)
        (subdomainOf recordName (getRootDomain domain)) "TXT" ttl
        [content] false <;>
      simp

/-- The conflict set is empty exactly when no listed record matches the
subdomain with type TXT. -/
theorem filter_conflict_isEmpty (records : List DNSRecord) (sub : String) :
    (records.filter
        (fun z => z.name == sub && z.type == "TXT")).isEmpty = true
      ↔ ¬ ∃ r ∈ records, r.name = sub ∧ r.type = "TXT" := by
  rw [List.isEmpty_iff, List.filter_eq_nil_iff]
  simp

/-- C1: With a successful listing: when some listed record matches the
relative name with type TXT, the trace is exactly list, one delete-by-filter
(name = rel, type = TXT), then the create; with no conflicting record the
trace is exactly list then create, with no delete.  In both cases the
create request is issued. -/
theorem add_txt_record_conflict_handling (p : Provider)
    (domain recordName content : String) (ttl : Nat)
    (records : List DNSRecord)
    (hinit : p.apiClientInit = .ok ())
    (hlist : p.listResult (getRootDomain domain) = .ok records) :
    ((∃ r ∈ records,
        r.name = subdomainOf recordName (getRootDomain domain) ∧
        r.type = "TXT") →
      (add_txt_record p domain recordName content ttl).1 =
        [ApiCall.list (getRootDomain domain),
         ApiCall.delete (getRootDomain domain)
           (subdomainOf recordName (getRootDomain domain)) "TXT",
         ApiCall.create (getRootDomain domain)
           (subdomainOf recordName (getRootDomain domain)) "TXT" ttl
           [content] false]) ∧
    ((¬ ∃ r ∈ records,
        r.name = subdomainOf recordName (getRootDomain domain) ∧
        r.type = "TXT") →
      (add_txt_record p domain recordName content ttl).1 =
        [ApiCall.list (getRootDomain domain),
         ApiCall.create (getRootDomain domain)
           (subdomainOf recordName (getRootDomain domain)) "TXT" ttl
           [content] false]) := by
  rw [add_txt_record_eq p domain recordName content ttl records hinit hlist]
  constructor
  · intro hex
    have hemp : (records.filter (fun z =>
        z.name == subdomainOf recordName (getRootDomain domain) &&
        z.type == "TXT")).isEmpty = false := by
      rw [Bool.eq_false_iff]
      intro h
      exact (filter_conflict_isEmpty records _).mp h hex
    simp [hemp]
  · intro hnex
    have hemp := (filter_conflict_isEmpty records
      (subdomainOf recordName (getRootDomain domain))).mpr hnex
    simp [hemp]

/-- C1 witness: A pre-existing TXT record at `_acme-challenge` yields
the list–delete–create trace. -/
theorem add_txt_record_conflict_handling_witness :
    (add_txt_record
        (stubProvider [⟨"_acme-challenge", "TXT", "old", 60⟩])
        "bbdevs.com" "_acme-challenge.bbdevs.com" "new" 60).1 =
      [ApiCall.list (getRootDomain "bbdevs.com"),
       ApiCall.delete (getRootDomain "bbdevs.com")
         (subdomainOf "_acme-challenge.bbdevs.com"
           (getRootDomain "bbdevs.com")) "TXT",
       ApiCall.create (getRootDomain "bbdevs.com")
         (subdomainOf "_acme-challenge.bbdevs.com"
           (getRootDomain "bbdevs.com")) "TXT" 60 ["new"] false] :=
  (add_txt_record_conflict_handling
    (stubProvider [⟨"_acme-challenge", "TXT", "old", 60⟩])
    "bbdevs.com" "_acme-challenge.bbdevs.com" "new" 60
    [⟨"_acme-challenge", "TXT", "old", 60⟩] rfl rfl).1 (by decide)

/-- C4: Fatality policy of `add_txt_record`: a failing list request
makes the whole operation fail with a `PluginError` wrapping the original
cause, and so does a failing create request; a failing conflict-cleanup
delete is swallowed — with the conflict present, a failing delete and a
succeeding create still produce the full list–delete–create trace and a
successful outcome. -/
theorem add_txt_record_error_policy (p : Provider)
    (domain recordName content e : String) (ttl : Nat)
    (records : List DNSRecord) :
    (p.apiClientInit = .ok () →
      p.listResult (getRootDomain domain) = .error e →
      (add_txt_record p domain recordName content ttl).2 =
        .error ⟨"Encountered error adding TXT record: " ++ e, some e⟩) ∧
    (p.apiClientInit = .ok () →
      p.listResult (getRootDomain domain) = .ok records →
      p.createResult (getRootDomain domain)
          (subdomainOf recordName (getRootDomain domain)) "TXT" ttl
          [content] false = .error e →
      (add_txt_record p domain recordName content ttl).2 =
        .error ⟨"Encountered error adding TXT record: " ++ e, some e⟩) ∧
    (p.apiClientInit = .ok () →
      p.listResult (getRootDomain domain) = .ok records →
      p.deleteResult (getRootDomain domain)
          (subdomainOf recordName (getRootDomain domain)) "TXT" =
        .error e →
      p.createResult (getRootDomain domain)
          (subdomainOf recordName (getRootDomain domain)) "TXT" ttl
          [content] false = .ok () →
      (∃ r ∈ records,
          r.name = subdomainOf recordName (getRootDomain domain) ∧
          r.type = "TXT") →
      add_txt_record p domain recordName content ttl =
        ([ApiCall.list (getRootDomain domain),
          ApiCall.delete (getRootDomain domain)
            (subdomainOf recordName (getRootDomain domain)) "TXT",
          ApiCall.create (getRootDomain domain)
            (subdomainOf recordName (getRootDomain domain)) "TXT" ttl
            [content] false], .ok ())) := by
  refine ⟨fun hinit hlist => ?_, fun hinit hlist hcreate => ?_,
    fun hinit hlist _hdel hcreate hex => ?_⟩
  · simp [add_txt_record, hinit, hlist]
  · rw [add_txt_record_eq p domain recordName content ttl records hinit
      hlist]
    simp [hcreate]
  · rw [add_txt_record_eq p domain recordName content ttl records hinit
      hlist]
    have hemp : (records.filter (fun z =>
        z.name == subdomainOf recordName (getRootDomain domain) &&
        z.type == "TXT")).isEmpty = false := by
      rw [Bool.eq_false_iff]
      intro h
      exact (filter_conflict_isEmpty records _).mp h hex
    simp [hemp, hcreate]

/-- C4 witness: A failing listing aborts the upsert with the wrapped
cause. -/
theorem add_txt_record_error_policy_witness :
    (add_txt_record
        { apiClientInit := .ok ()
        , listResult := fun _ => .error "boom"
        , deleteResult := fun _ _ _ => .ok ()
        , createResult := fun _ _ _ _ _ _ => .ok () }
        "bbdevs.com" "_acme-challenge.bbdevs.com" "tok" 60).2 =
      .error ⟨"Encountered error adding TXT record: " ++ "boom",
        some "boom"⟩ :=
  (add_txt_record_error_policy
    { apiClientInit := .ok ()
    , listResult := fun _ => .error "boom"
    , deleteResult := fun _ _ _ => .ok ()
    , createResult := fun _ _ _ _ _ _ => .ok () }
    "bbdevs.com" "_acme-challenge.bbdevs.com" "tok" "boom" 60 []).1 rfl rfl

/-- C5: `del_txt_record` returns normally on every input: whatever the
outcome of client construction or of the delete request, the result is
`ok`. -/
theorem del_txt_record_never_raises (p : Provider)
    (domain recordName content : String) :
    (del_txt_record p domain recordName content).2 = .ok () := by
  simp only [del_txt_record]
  cases p.apiClientInit with
  | error e => rfl
  | ok u =>
    cases p.deleteResult (getRootDomain domain)
        (subdomainOf recordName (getRootDomain domain)) "TXT" <;> rfl

/-- Running one upsert against the stub zone `st`: the conflicting records
(if any) are removed and the fresh TXT record is appended. -/
theorem runAddStub_eq (st : List DNSRecord)
    (domain recordName content : String) (ttl : Nat) :
    runAddStub st domain recordName content ttl =
      (if (st.filter (fun z =>
            z.name == subdomainOf recordName (getRootDomain domain) &&
            z.type == "TXT")).isEmpty then st
       else st.filter (fun r =>
            !(r.name == subdomainOf recordName (getRootDomain domain) &&
              r.type == "TXT"))) ++
      [⟨subdomainOf recordName (getRootDomain domain), "TXT", content,
        ttl⟩] := by
  unfold runAddStub
  rw [add_txt_record_eq (stubProvider st) domain recordName content ttl st
    rfl rfl]
  cases hemp : (st.filter (fun z =>
      z.name == subdomainOf recordName (getRootDomain domain) &&
      z.type == "TXT")).isEmpty
  · simp [hemp, applyCall]
  · simp [hemp, applyCall]

/-- After one upsert against the stub zone, the records matching the
target (name, TXT) are exactly the single fresh record. -/
theorem runAddStub_filter (st : List DNSRecord)
    (domain recordName content : String) (ttl : Nat) :
    (runAddStub st domain recordName content ttl).filter
        (fun z => z.name == subdomainOf recordName (getRootDomain domain) &&
          z.type == "TXT")
      = [⟨subdomainOf recordName (getRootDomain domain), "TXT", content,
          ttl⟩] := by
  rw [runAddStub_eq]
  cases hemp : (st.filter (fun z =>
      z.name == subdomainOf recordName (getRootDomain domain) &&
      z.type == "TXT")).isEmpty
  · rw [if_neg (by simp [hemp]), List.filter_append]
    simp [List.filter_filter]
  · rw [if_pos (by simp [hemp]), List.filter_append,
      List.isEmpty_iff.mp hemp]
    simp

/-- C6: Against the stub provider (zone state listed, deleted and
created faithfully), two consecutive upserts with the same arguments leave
exactly one TXT record at the target relative name, holding the latest
content. -/
theorem upsert_txt_idempotent (st : List DNSRecord)
    (domain recordName content : String) (ttl : Nat) :
    (runAddStub (runAddStub st domain recordName content ttl)
        domain recordName content ttl).filter
        (fun z => z.name == subdomainOf recordName (getRootDomain domain) &&
          z.type == "TXT")
      = [⟨subdomainOf recordName (getRootDomain domain), "TXT", content,
          ttl⟩] :=
  runAddStub_filter _ domain recordName content ttl

/-- C7: Every create request issued by `add_txt_record` carries
`overwrite = false`, and under the stub semantics every zone record whose
(name, type) differs from the target survives the upsert unchanged. -/
theorem add_txt_record_overwrite_false (p : Provider)
    (domain recordName content : String) (ttl : Nat) :
    (∀ z nm ty t cs ow, ApiCall.create z nm ty t cs ow ∈
        (add_txt_record p domain recordName content ttl).1 → ow = false) ∧
    (∀ st : List DNSRecord,
      (runAddStub st domain recordName content ttl).filter
          (fun r => !(r.name == subdomainOf recordName (getRootDomain domain)
            && r.type == "TXT"))
        = st.filter (fun r => !(r.name == subdomainOf recordName
            (getRootDomain domain) && r.type == "TXT"))) := by
  constructor
  · intro z nm ty t cs ow hmem
    cases hinit : p.apiClientInit with
    | error e =>
      simp [add_txt_record, hinit] at hmem
    | ok u =>
      obtain ⟨⟩ := u
      cases hlist : p.listResult (getRootDomain domain) with
      | error e =>
        simp [add_txt_record, hinit, hlist] at hmem
      | ok records =>
        rw [add_txt_record_eq p domain recordName content ttl records hinit
          hlist] at hmem
        cases hemp : (records.filter (fun z =>
            z.name == subdomainOf recordName (getRootDomain domain) &&
            z.type == "TXT")).isEmpty <;>
          simp [hemp] at hmem <;> tauto
  · intro st
    rw [runAddStub_eq]
    cases hemp : (st.filter (fun z =>
        z.name == subdomainOf recordName (getRootDomain domain) &&
        z.type == "TXT")).isEmpty
    · rw [if_neg (by simp [hemp]), List.filter_append]
      simp [List.filter_filter]
    · rw [if_pos (by simp [hemp]), List.filter_append]
      simp

/-- C7 witness: Concrete run: the flag of the create request, and an
unrelated A record surviving the upsert. -/
theorem add_txt_record_overwrite_false_witness :
    (false : Bool) = false ∧
    (runAddStub [⟨"www", "A", "203.0.113.7", 300⟩] "bbdevs.com"
        "_acme-challenge.bbdevs.com" "tok" 60).filter
        (fun r => !(r.name == subdomainOf "_acme-challenge.bbdevs.com"
          (getRootDomain "bbdevs.com") && r.type == "TXT"))
      = [⟨"www", "A", "203.0.113.7", 300⟩] :=
  ⟨(add_txt_record_overwrite_false (stubProvider []) "bbdevs.com"
      "_acme-challenge.bbdevs.com" "tok" 60).1
      (getRootDomain "bbdevs.com")
      (subdomainOf "_acme-challenge.bbdevs.com" (getRootDomain "bbdevs.com"))
      "TXT" 60 ["tok"] false (by decide),
   ((add_txt_record_overwrite_false (stubProvider []) "bbdevs.com"
      "_acme-challenge.bbdevs.com" "tok" 60).2
      [⟨"www", "A", "203.0.113.7", 300⟩]).trans (by decide)⟩

/-- C8 counterexample: On a prepared authenticator, one `_perform`
followed by one `_cleanup` construct two API clients — the claim that the
client is constructed at most once across sequential operations fails. -/
theorem api_client_not_shared_counterexample :
    ¬ (performConstructions ⟨some "tok"⟩ +
        cleanupConstructions ⟨some "tok"⟩ ≤ 1) := by
  decide

/-- C8 amended: The API client is lazily constructed and cached per
`_HostingerClient` instance: on such an instance the first
`_get_api_client` call constructs it and later calls reuse the same cached
client without constructing again.  But `_get_hostinger_client` builds a
fresh `_HostingerClient` for every operation, so a create followed by a
destroy on the same prepared authenticator performs two API-client
constructions, one per operation. -/
theorem api_client_cached_per_instance (c : HostingerClient) (tok : String)
    (h : c.apiClient = none) :
    (getApiClient c).2 = 1 ∧
    (getApiClient (getApiClient c).1).2 = 0 ∧
    (getApiClient (getApiClient c).1).1 = (getApiClient c).1 ∧
    performConstructions ⟨some tok⟩ + cleanupConstructions ⟨some tok⟩
      = 2 := by
  simp [getApiClient, performConstructions, cleanupConstructions,
    getHostingerClient, h]

/-- C8 amended witness: Concrete client with no cached API client. -/
theorem api_client_cached_per_instance_witness :
    (getApiClient ⟨"tok", none⟩).2 = 1 ∧
    (getApiClient (getApiClient ⟨"tok", none⟩).1).2 = 0 ∧
    (getApiClient (getApiClient ⟨"tok", none⟩).1).1
      = (getApiClient ⟨"tok", none⟩).1 ∧
    performConstructions ⟨some "tok"⟩ + cleanupConstructions ⟨some "tok"⟩
      = 2 :=
  api_client_cached_per_instance ⟨"tok", none⟩ "tok" rfl

/-- C9: Deletion ignores the validation token: two `del_txt_record`
runs (and two `_cleanup` runs) differing only in the record-content
argument issue identical requests and have identical outcomes. -/
theorem del_txt_record_ignores_content (a : AuthState) (p : Provider)
    (domain recordName token token' : String) :
    del_txt_record p domain recordName token
      = del_txt_record p domain recordName token' ∧
    authCleanup a p domain recordName token
      = authCleanup a p domain recordName token' :=
  ⟨rfl, rfl⟩
